import Mathlib

/-!
Verification of the report formatter in `src/renderer.py`
(repository `python-course-country-directory`).

The renderer is a pure presentation layer: it turns an already-assembled
`LocationInfoDTO` into a tuple of text lines (a bordered two-part table
followed by a news digest).  This file gives a shallow embedding of that
code and settles the specification claims about it.

Python-specific semantics that the embedding models explicitly:
* `str(int)` — decimal digit rendering (`pyNatStr` / `pyIntStr`);
* `"{:,}".format(int)` — grouping of digits in threes (`groupRight`);
* `Decimal(x).quantize(Decimal(".01"), ROUND_HALF_UP)` — exact rational
  arithmetic (`halfUpCents`); `Decimal` of a float is the float's exact
  binary value, `Decimal` of a numeric string is the string's exact
  decimal value (`RateInput`);
* IEEE-754 double conversion of a decimal literal (`nearestDouble`);
* `x // y` on ints — floor division (`Int.fdiv`);
* `datetime.fromtimestamp(t)` — conversion through the host machine's
  local timezone, modelled as a fixed host UTC offset parameter
  (`pyFromtimestampStr`).
-/

namespace CountryDirectory

/-! ## Python integer rendering (`str(int)`) -/

/-- The ASCII character of the decimal digit `n % 10`. -/
def digitChar (n : ℕ) : Char := Char.ofNat (48 + n % 10)

/-- Fuel-driven digit accumulation for `str` of a natural number.
The fuel bounds the number of divisions by 10; `pyNatStr` supplies
enough fuel for every input. -/
def pyNatDigits : ℕ → ℕ → List Char
  | 0, _ => []
  | fuel + 1, n => if n < 10 then [digitChar n] else pyNatDigits fuel (n / 10) ++ [digitChar n]

/-- Python `str` of a natural number. -/
def pyNatStr (n : ℕ) : String := String.mk (pyNatDigits (n + 1) n)

/-- Python `str` of an int: a `-` sign for negatives, then the digits. -/
def pyIntStr (n : ℤ) : String := (if n < 0 then "-" else "") ++ pyNatStr n.natAbs

example : pyNatStr 1234567 = "1234567" := by decide
example : pyIntStr (-5) = "-5" := by decide
example : pyIntStr 0 = "0" := by decide

/-! ## Data model

Modelled from the spec: the input type `LocationInfoDTO` is declared in
`collectors.models`, which is not part of this repository's sources; the
field set below follows §3 of the spec.  Numeric fields whose only use in
the renderer is to be interpolated into an f-string (area, capital
latitude/longitude, temperature, wind speed, visibility) are modelled as
integers, since only their decimal rendering reaches the output and no
claim constrains it.  `dt`, `timezone` and `population` are integers in
the spec itself. -/

/-- One language entry: `Language{name, native_name}`. -/
structure Language where
  name : String
  native_name : String
  deriving DecidableEq

/-- One news entry: `NewsItem{title, description, url, published_at}`. -/
structure NewsItem where
  title : String
  description : String
  url : String
  published_at : String
  deriving DecidableEq

/-- Weather data of the capital (spec §3). -/
structure Weather where
  dt : ℤ
  timezone : ℤ
  temp : ℤ
  description : String
  wind_speed : ℤ
  visibility : ℤ
  deriving DecidableEq

/-- Location data (spec §3). -/
structure Location where
  name : String
  subregion : String
  area : ℤ
  capital : String
  capital_latitude : ℤ
  capital_longitude : ℤ
  population : ℤ
  languages : List Language
  deriving DecidableEq

/-- A currency rate as the renderer receives it: a numeric string or a
float (spec §3: "numeric or numeric-as-string").  Each constructor
carries the exact rational value of the Python object as explicit
integer data: `str n s` is the decimal numeral with value `n / 10 ^ s`
(for example `"2.345"` is `str 2345 3`), and `flt m e` is the IEEE-754
double with exact value `m * 2 ^ e`.  `Decimal(x)` converts either form
exactly, so the value `Decimal` sees is `RateInput.frac`. -/
inductive RateInput where
  | str (n : ℤ) (s : ℕ)
  | flt (m : ℤ) (e : ℤ)
  deriving DecidableEq

/-- The exact value `Decimal(x)` takes on a rate input, as a fraction
`(numerator, positive denominator)`. -/
def RateInput.frac : RateInput → ℤ × ℕ
  | .str n s => (n, 10 ^ s)
  | .flt m e => if 0 ≤ e then (m * 2 ^ e.toNat, 1) else (m, 2 ^ (-e).toNat)

/-- The aggregate input object (spec §3). `currency_rates` keeps the
mapping's insertion order as a list of pairs. -/
structure LocationInfo where
  location : Location
  weather : Weather
  currency_rates : List (String × RateInput)
  news : List NewsItem
  deriving DecidableEq

/-! ## IEEE-754 double of a decimal literal

A rate "supplied as a number" reaches the renderer as the IEEE-754
double nearest to the decimal literal.  `nearestDoubleOfDec n s`
computes that double exactly for the literal with value `n / 10 ^ s`
(round to 53 significant bits, ties to even; normal range only, which
covers every realistic exchange rate).  All arithmetic is on explicit
integer fractions. -/

/-- Round the fraction `n / d` (with `d > 0`) to the nearest integer,
ties to even. -/
def roundHalfEvenFrac (n : ℤ) (d : ℕ) : ℤ :=
  let f := n.fdiv d
  let r := n.fmod d
  if 2 * r < d then f
  else if (d : ℤ) < 2 * r then f + 1
  else if f % 2 = 0 then f else f + 1

/-- Fuel-driven binary exponent search: with the invariant that the
tracked value is `num / den * 2 ^ (-e)`... it normalises `num / den`
into `[1, 2)` by doubling one side, returning the exponent `e` with
`2 ^ e ≤ num₀ / den₀ < 2 ^ (e + 1)`. -/
def binExpAux : ℕ → ℕ → ℕ → ℤ → ℤ
  | 0, _, _, e => e
  | fuel + 1, num, den, e =>
    if num < den then binExpAux fuel (2 * num) den (e - 1)
    else if 2 * den ≤ num then binExpAux fuel num (2 * den) (e + 1)
    else e

/-- The IEEE-754 binary64 value nearest to the decimal literal
`n / 10 ^ s`, as a `RateInput.flt`. -/
def nearestDoubleOfDec (n : ℤ) (s : ℕ) : RateInput :=
  if n = 0 then .flt 0 0
  else
    let na := n.natAbs
    let d := 10 ^ s
    let e := binExpAux 4200 na d 0
    let num2 : ℤ := (na : ℤ) * 2 ^ (52 - e).toNat
    let den2 : ℕ := d * 2 ^ (e - 52).toNat
    let m := roundHalfEvenFrac num2 den2
    .flt (if n < 0 then -m else m) (e - 52)

example : nearestDoubleOfDec 2675 3 = .flt 6023564501608038 (-51) := by decide

/-- The mantissa produced for `2.675` really is the nearest 53-bit
dyadic: `6023564501608038 / 2 ^ 51` is within half an ulp of
`2675 / 1000`, i.e. `2 * |1000 * m - 2675 * 2 ^ 51| ≤ 1000`. -/
example : 2 * (1000 * 6023564501608038 - 2675 * 2 ^ 51 : ℤ).natAbs ≤ 1000 := by decide

/-! ## The currency helper (`_format_currency_rates`)

`Decimal(rates).quantize(exp=Decimal(".01"), rounding=ROUND_HALF_UP)`
rounds the exact value of `rates` to an integer number of cents, ties
away from zero, and prints it with exactly two digits after the decimal
point. -/

/-- `ROUND_HALF_UP` quantization of `n / d` (with `d > 0`) to cents:
round `100 * n / d` to the nearest integer, ties away from zero. -/
def halfUpCentsFrac (n : ℤ) (d : ℕ) : ℤ :=
  if 0 ≤ n then (200 * n + d).fdiv (2 * d)
  else -((200 * (-n) + d).fdiv (2 * d))

/-- Cents value of `Decimal(rates).quantize(Decimal(".01"), ROUND_HALF_UP)`. -/
def halfUpCents (r : RateInput) : ℤ := halfUpCentsFrac r.frac.1 r.frac.2

/-- Zero-padded two-digit rendering (used for cents and for time fields). -/
def pad2 (n : ℕ) : String := if n < 10 then "0" ++ pyNatStr n else pyNatStr n

/-- Printing of a `Decimal` with exponent `-2` whose value is `c` cents:
sign, integer part, point, exactly two fractional digits. -/
def decStr2 (c : ℤ) : String :=
  (if c < 0 then "-" else "") ++ pyNatStr (c.natAbs / 100) ++ "." ++ pad2 (c.natAbs % 100)

/-- `Renderer._format_currency_rates`. -/
def formatCurrencyRates (rates : List (String × RateInput)) : String :=
  String.intercalate ", "
    (rates.map fun p => p.1 ++ " = " ++ decStr2 (halfUpCents p.2) ++ " руб.")

example : decStr2 (halfUpCents (.str 2345 3)) = "2.35" := by decide
example : decStr2 (halfUpCents (.str 2344 3)) = "2.34" := by decide
example : decStr2 (halfUpCents (nearestDoubleOfDec 2345 3)) = "2.35" := by decide
example : decStr2 (halfUpCents (nearestDoubleOfDec 2344 3)) = "2.34" := by decide
example : decStr2 (halfUpCents (nearestDoubleOfDec 2675 3)) = "2.67" := by decide
example : decStr2 (halfUpCents (.str 2675 3)) = "2.68" := by decide
example : formatCurrencyRates [("USD", .str 777 2), ("EUR", .str 9005 2)] =
    "USD = 7.77 руб., EUR = 90.05 руб." := by decide

/-! ## The timezone helper (`_format_timezone`)

Python `//` on ints is floor division, which is `Int.fdiv`. -/

/-- `Renderer._format_timezone`: `"UTC"`, a `"+"` when the offset is
`>= 0`, then `str(timezone // 3600)`. -/
def formatTimezone (timezone : ℤ) : String :=
  (if 0 ≤ timezone then "UTC" ++ "+" else "UTC") ++ pyIntStr (timezone.fdiv 3600)

example : formatTimezone 10800 = "UTC+3" := by decide
example : formatTimezone (-18000) = "UTC-5" := by decide
example : formatTimezone 0 = "UTC+0" := by decide
example : formatTimezone (-3000) = "UTC-1" := by decide

/-! ## The languages helper (`_format_languages`) -/

/-- `Renderer._format_languages`: join `"{name} ({native_name})"` with `", "`. -/
def formatLanguages (languages : List Language) : String :=
  String.intercalate ", "
    (languages.map fun item => item.name ++ " (" ++ item.native_name ++ ")")

example : formatLanguages [⟨"Russian", "Русский"⟩] = "Russian (Русский)" := by decide
example : formatLanguages [] = "" := by decide

/-! ## The population helper (`_format_population`)

`"{:,}".format(n)` groups the decimal digits of `n` in threes from the
right with `","`; `.replace(",", ".")` then replaces the one-character
pattern `","` by `"."`, which acts on each character independently
(modelled as a character map). -/

/-- Insert `sep` after every three characters, except after the final
group.  Applied to the *reversed* digit list, this is grouping in threes
from the right. -/
def groupAux (sep : Char) : List Char → List Char
  | a :: b :: c :: rest =>
    if rest.isEmpty then [a, b, c] else a :: b :: c :: sep :: groupAux sep rest
  | l => l

/-- Group a digit list in threes from the right with separator `sep`. -/
def groupRight (sep : Char) (digits : List Char) : List Char :=
  (groupAux sep digits.reverse).reverse

/-- `"{:,}".format(n)` for an int `n`, as a character list. -/
def pyFormatCommaList (n : ℤ) : List Char :=
  (if n < 0 then ['-'] else []) ++ groupRight ',' (pyNatDigits (n.natAbs + 1) n.natAbs)

/-- The character action of `.replace(",", ".")`. -/
def replDot (c : Char) : Char := if c = ',' then '.' else c

/-- `Renderer._format_population`:
`"{:,}".format(population).replace(",", ".")`. -/
def format_population (population : ℤ) : String :=
  String.mk ((pyFormatCommaList population).map replDot)

/-- The population rendering as the spec words it: the decimal digits
grouped in threes with `"."` as the thousands separator (sign first for
negatives). -/
def specPopulationDots (population : ℤ) : String :=
  String.mk ((if population < 0 then ['-'] else []) ++
    groupRight '.' (pyNatDigits (population.natAbs + 1) population.natAbs))

example : format_population 1234567 = "1.234.567" := by decide
example : format_population 146 = "146" := by decide
example : format_population 1000 = "1.000" := by decide
example : format_population (-1234567) = "-1.234.567" := by decide

/-! ## The news helper (`_format_news`) -/

/-- The four lines plus trailing blank line which the loop body of
`_format_news` appends for one news item. -/
def newsBlock (item : NewsItem) : String :=
  item.title ++ "\n" ++ item.description ++ "\n" ++ item.url ++ "\n" ++
    item.published_at ++ "\n\n"

/-- `Renderer._format_news`: start from the header line and append the
block of every news item in order (the Python `for` loop with `+=`). -/
def formatNews (news : List NewsItem) : String :=
  news.foldl (fun result item => result ++ newsBlock item) "Новости по данной стране\n"

example : formatNews [] = "Новости по данной стране\n" := by decide
example : formatNews [⟨"t", "d", "u", "p"⟩] =
    "Новости по данной стране\nt\nd\nu\np\n\n" := by decide

/-! ## `datetime.fromtimestamp` and its string form

`str(datetime)` with a zero microsecond field is
`"YYYY-MM-DD HH:MM:SS"`.  The date from the day number uses the
standard proleptic-Gregorian civil-from-days algorithm.
`datetime.fromtimestamp(t)` converts `t` through the host machine's
local timezone; for a host on a fixed UTC offset this is the civil time
of `t + hostOffset`, so the embedding takes the host offset as an
explicit parameter standing for the ambient environment. -/

/-- Civil date `(year, month, day)` of a day number (days since
1970-01-01, proleptic Gregorian). -/
def civilFromDays (z : ℤ) : ℤ × ℕ × ℕ :=
  let z' := z + 719468
  let era := z'.fdiv 146097
  let doe := (z'.fmod 146097).toNat
  let yoe := (doe - doe / 1460 + doe / 36524 - doe / 146096) / 365
  let doy := doe - (365 * yoe + yoe / 4 - yoe / 100)
  let mp := (5 * doy + 2) / 153
  let d := doy - (153 * mp + 2) / 5 + 1
  let m := if mp < 10 then mp + 3 else mp - 9
  (era * 400 + yoe + (if m ≤ 2 then 1 else 0), m, d)

/-- Four-digit zero-padded year (Python `datetime` years are `1..9999`). -/
def pad4 (n : ℕ) : String :=
  if n < 10 then "000" ++ pyNatStr n
  else if n < 100 then "00" ++ pyNatStr n
  else if n < 1000 then "0" ++ pyNatStr n
  else pyNatStr n

/-- `str(datetime)` of the civil time `ts` seconds after the epoch
(microsecond `0`, so seconds precision). -/
def datetimeStr (ts : ℤ) : String :=
  let days := ts.fdiv 86400
  let s := (ts.fmod 86400).toNat
  let ymd := civilFromDays days
  pad4 ymd.1.toNat ++ "-" ++ pad2 ymd.2.1 ++ "-" ++ pad2 ymd.2.2 ++ " " ++
    pad2 (s / 3600) ++ ":" ++ pad2 (s % 3600 / 60) ++ ":" ++ pad2 (s % 60)

example : datetimeStr 0 = "1970-01-01 00:00:00" := by decide
example : datetimeStr 4600 = "1970-01-01 01:16:40" := by decide
example : datetimeStr 1000000000 = "2001-09-09 01:46:40" := by decide
example : datetimeStr (-1) = "1969-12-31 23:59:59" := by decide

/-- `datetime.fromtimestamp(ts)` rendered by `str`, on a host machine
whose local timezone is the fixed offset `hostOffset` seconds east of
UTC: the civil time of `ts + hostOffset`. -/
def pyFromtimestampStr (ts hostOffset : ℤ) : String := datetimeStr (ts + hostOffset)

/-- The `"Время в столице"` value: the code's
`datetime.fromtimestamp(weather.dt + weather.timezone)`. -/
def localTimeStr (w : Weather) (hostOffset : ℤ) : String :=
  pyFromtimestampStr (w.dt + w.timezone) hostOffset

/-! ## `Renderer.render` -/

/-- The ordered `country_part` mapping of labelled fields. -/
def countryPart (info : LocationInfo) : List (String × String) :=
  [("Страна", info.location.name),
   ("Регион", info.location.subregion),
   ("Площадь страны", pyIntStr info.location.area ++ " км²"),
   ("Языки", formatLanguages info.location.languages),
   ("Население страны", format_population info.location.population ++ " чел."),
   ("Курсы валют", formatCurrencyRates info.currency_rates)]

/-- The ordered `capital_part` mapping of labelled fields. -/
def capitalPart (info : LocationInfo) (hostOffset : ℤ) : List (String × String) :=
  [("Столица", info.location.capital),
   ("Широта столицы", pyIntStr info.location.capital_latitude),
   ("Долгота столицы", pyIntStr info.location.capital_longitude),
   ("Погода в столице", pyIntStr info.weather.temp ++ " °C"),
   ("Описание погоды в столице", info.weather.description),
   ("Скорость ветра в столице", pyIntStr info.weather.wind_speed ++ " м/с"),
   ("Видимость в столице", pyIntStr info.weather.visibility ++ " м"),
   ("Часовой пояс столицы", formatTimezone info.weather.timezone),
   ("Время в столице", localTimeStr info.weather hostOffset)]

/-- The `max_key_length` accumulation loop body. -/
def maxKeyStep (acc : ℕ) (p : String × String) : ℕ := max acc p.1.length

/-- The `max_val_length` accumulation loop body. -/
def maxValStep (acc : ℕ) (p : String × String) : ℕ := max acc p.2.length

/-- `max_key_length`: the two `for` loops over `country_part` then
`capital_part`, accumulating `max` from `0`. -/
def maxKeyLen (info : LocationInfo) (hostOffset : ℤ) : ℕ :=
  (capitalPart info hostOffset).foldl maxKeyStep ((countryPart info).foldl maxKeyStep 0)

/-- `max_val_length`: same two loops for the values. -/
def maxValLen (info : LocationInfo) (hostOffset : ℤ) : ℕ :=
  (capitalPart info hostOffset).foldl maxValStep ((countryPart info).foldl maxValStep 0)

/-- `" " * n`. -/
def spaces (n : ℕ) : String := String.mk (List.replicate n ' ')

/-- A data row of the table (one `result.append` of the row loops). -/
def dataRow (mk mv : ℕ) (key val : String) : String :=
  "| " ++ key ++ spaces (mk - key.length) ++ " | " ++ val ++
    spaces (mv - val.length + 2) ++ " |\n"

/-- A separator rule `"|" + "-" * w + "|\n"` (the code always passes
`w = max_key_length + max_val_length + 7`). -/
def sepRow (w : ℕ) : String := "|" ++ String.mk (List.replicate w '-') ++ "|\n"

/-- A section title row. -/
def titleRow (mk mv : ℕ) (title : String) : String :=
  "| " ++ title ++ spaces (mk + mv + 5 - title.length) ++ " |\n"

/-- The top border `"_" * (mk + mv + 9) + "\n"`. -/
def topBorder (mk mv : ℕ) : String := String.mk (List.replicate (mk + mv + 9) '_') ++ "\n"

/-- `Renderer.render`.  `hostOffset` is the host machine's local UTC
offset in seconds, the ambient environment consulted by
`datetime.fromtimestamp`.  The returned Python tuple of strings is
modelled as a list in order. -/
def render (info : LocationInfo) (hostOffset : ℤ) : List String :=
  let mk := maxKeyLen info hostOffset
  let mv := maxValLen info hostOffset
  [topBorder mk mv,
   titleRow mk mv "Информация о стране",
   sepRow (mk + mv + 7)] ++
  ((countryPart info).flatMap fun p => [dataRow mk mv p.1 p.2, sepRow (mk + mv + 7)]) ++
  [titleRow mk mv "Информация о столице",
   sepRow (mk + mv + 7)] ++
  ((capitalPart info hostOffset).flatMap fun p =>
    [dataRow mk mv p.1 p.2, sepRow (mk + mv + 7)]) ++
  ["\n\n" ++ formatNews info.news]

/-! ## State-threaded form of `render`

The Python methods receive the `LocationInfo` through `self` and could
in principle mutate it.  To make the frame property a statement rather
than a convention, each helper is also given in a state-passing form
that returns, next to its result, the `LocationInfo` as it stands after
the call; the translation of each method body contains only field reads,
so each returns the state it received. -/

/-- State-passing `_format_languages`. -/
def formatLanguagesProc (s : LocationInfo) : String × LocationInfo :=
  (formatLanguages s.location.languages, s)

/-- State-passing `_format_population`. -/
def formatPopulationProc (s : LocationInfo) : String × LocationInfo :=
  (format_population s.location.population, s)

/-- State-passing `_format_currency_rates`. -/
def formatCurrencyRatesProc (s : LocationInfo) : String × LocationInfo :=
  (formatCurrencyRates s.currency_rates, s)

/-- State-passing `_format_timezone`. -/
def formatTimezoneProc (s : LocationInfo) : String × LocationInfo :=
  (formatTimezone s.weather.timezone, s)

/-- State-passing `_format_news`. -/
def formatNewsProc (s : LocationInfo) : String × LocationInfo :=
  (formatNews s.news, s)

/-- State-passing `render`: performs the helper calls in program order,
threading the `LocationInfo` state, and returns the final state next to
the output. -/
def renderProc (s : LocationInfo) (hostOffset : ℤ) : List String × LocationInfo :=
  let r1 := formatLanguagesProc s
  let r2 := formatPopulationProc r1.2
  let r3 := formatCurrencyRatesProc r2.2
  let r4 := formatTimezoneProc r3.2
  let s4 := r4.2
  let mk := maxKeyLen s4 hostOffset
  let mv := maxValLen s4 hostOffset
  let r5 := formatNewsProc s4
  (([topBorder mk mv,
     titleRow mk mv "Информация о стране",
     sepRow (mk + mv + 7)] ++
    ((countryPart s4).flatMap fun p => [dataRow mk mv p.1 p.2, sepRow (mk + mv + 7)]) ++
    [titleRow mk mv "Информация о столице",
     sepRow (mk + mv + 7)] ++
    ((capitalPart s4 hostOffset).flatMap fun p =>
      [dataRow mk mv p.1 p.2, sepRow (mk + mv + 7)]) ++
    ["\n\n" ++ r5.1]), r5.2)

/-! ## A concrete minimal input -/

/-- A minimal `LocationInfo`: one language, one currency entry, one
news item. -/
def info0 : LocationInfo :=
  { location :=
      { name := "Россия", subregion := "Восточная Европа", area := 17098246,
        capital := "Москва", capital_latitude := 55, capital_longitude := 37,
        population := 146171015, languages := [⟨"Russian", "Русский"⟩] },
    weather :=
      { dt := 1000, timezone := 3600, temp := 7, description := "ясно",
        wind_speed := 3, visibility := 10000 },
    currency_rates := [("USD", .str 777 2)],
    news := [⟨"t", "d", "u", "p"⟩] }

example : (render info0 0).length = 36 := by decide

/-! ## Helper lemmas -/

/-- The empty string is a left unit for append. -/
theorem empty_append_str (s : String) : "" ++ s = s := by
  apply String.ext
  simp [String.data_append]

/-- An append-accumulating fold over strings factors out its base. -/
theorem foldl_append_shift :
    ∀ (l : List String) (a : String),
      List.foldl (· ++ ·) a l = a ++ List.foldl (· ++ ·) "" l
  | [], a => (String.append_empty a).symm
  | x :: xs, a => by
    have ih := foldl_append_shift xs (a ++ x)
    have ih0 := foldl_append_shift xs ("" ++ x)
    simp only [List.foldl_cons]
    rw [ih, ih0, empty_append_str, String.append_assoc]

/-- `String.join` of a cons. -/
theorem join_cons_str (s : String) (l : List String) :
    String.join (s :: l) = s ++ String.join l := by
  show List.foldl (· ++ ·) ("" ++ s) l = _
  rw [empty_append_str]
  exact foldl_append_shift l s

/-- A string append-accumulating fold factors through `String.join` of
the mapped list. -/
theorem foldl_append_eq_join (f : α → String) :
    ∀ (l : List α) (a : String),
      l.foldl (fun acc x => acc ++ f x) a = a ++ String.join (l.map f)
  | [], a => by simp [String.join, String.append_empty]
  | x :: xs, a => by
    have ih := foldl_append_eq_join f xs (a ++ f x)
    simp only [List.foldl_cons, List.map_cons] at ih ⊢
    rw [ih, join_cons_str, String.append_assoc]

/-- The base value of a max-accumulating fold bounds the fold from below. -/
theorem base_le_foldl_max (g : α → ℕ) :
    ∀ (l : List α) (a : ℕ), a ≤ l.foldl (fun acc x => max acc (g x)) a
  | [], _ => le_refl _
  | x :: xs, a =>
    le_trans (le_max_left a (g x)) (base_le_foldl_max g xs (max a (g x)))

/-- Every member of the list is bounded by a max-accumulating fold. -/
theorem le_foldl_max (g : α → ℕ) :
    ∀ (l : List α) (a : ℕ) (x : α), x ∈ l → g x ≤ l.foldl (fun acc y => max acc (g y)) a
  | x :: xs, a, y, hy => by
    rcases List.mem_cons.mp hy with h | h
    · subst h
      exact le_trans (le_max_right a (g y)) (base_le_foldl_max g xs (max a (g y)))
    · exact le_foldl_max g xs (max a (g x)) y h

/-- A label of either section is at most `max_key_length`. -/
theorem key_le_maxKeyLen (info : LocationInfo) (off : ℤ) (p : String × String)
    (hp : p ∈ countryPart info ++ capitalPart info off) :
    p.1.length ≤ maxKeyLen info off := by
  unfold maxKeyLen maxKeyStep
  rcases List.mem_append.mp hp with h | h
  · exact le_trans (le_foldl_max (fun q : String × String => q.1.length) _ 0 p h)
      (base_le_foldl_max (fun q : String × String => q.1.length) _ _)
  · exact le_foldl_max (fun q : String × String => q.1.length) _ _ p h

/-- A value of either section is at most `max_val_length`. -/
theorem val_le_maxValLen (info : LocationInfo) (off : ℤ) (p : String × String)
    (hp : p ∈ countryPart info ++ capitalPart info off) :
    p.2.length ≤ maxValLen info off := by
  unfold maxValLen maxValStep
  rcases List.mem_append.mp hp with h | h
  · exact le_trans (le_foldl_max (fun q : String × String => q.2.length) _ 0 p h)
      (base_le_foldl_max (fun q : String × String => q.2.length) _ _)
  · exact le_foldl_max (fun q : String × String => q.2.length) _ _ p h

/-- Length of `spaces`. -/
theorem spaces_length (n : ℕ) : (spaces n).length = n := by
  show (List.replicate n ' ').length = n
  simp

/-- The data row of a pair from either section is an element of the
rendered output. -/
theorem dataRow_mem_render (info : LocationInfo) (off : ℤ) (p : String × String)
    (hp : p ∈ countryPart info ++ capitalPart info off) :
    dataRow (maxKeyLen info off) (maxValLen info off) p.1 p.2 ∈ render info off := by
  unfold render
  rcases List.mem_append.mp hp with h | h
  · refine List.mem_append.mpr (.inl (List.mem_append.mpr (.inl (List.mem_append.mpr
      (.inl (List.mem_append.mpr (.inr ?_)))))))
    exact List.mem_flatMap.mpr ⟨p, h, by simp⟩
  · refine List.mem_append.mpr (.inl (List.mem_append.mpr (.inr ?_)))
    exact List.mem_flatMap.mpr ⟨p, h, by simp⟩

/-- Exact length of a data row, given the two max bounds: the visible
row is `mk + mv + 9` characters wide and the element carries one more
for the terminating newline. -/
theorem dataRow_length (mk mv : ℕ) (k v : String)
    (hk : k.length ≤ mk) (hv : v.length ≤ mv) :
    (dataRow mk mv k v).length = mk + mv + 10 := by
  unfold dataRow
  simp only [String.length_append, spaces_length]
  have h2 : ("| " : String).length = 2 := rfl
  have h3 : (" | " : String).length = 3 := rfl
  have h4 : (" |\n" : String).length = 3 := rfl
  rw [h2, h3, h4]
  omega

/-- A digit character is never a comma. -/
theorem digitChar_ne_comma (n : ℕ) : digitChar n ≠ ',' := by
  unfold digitChar
  have h : n % 10 < 10 := Nat.mod_lt _ (by omega)
  set m := n % 10 with hm
  interval_cases m <;> decide

/-- Every character produced by `pyNatDigits` is a digit character. -/
theorem pyNatDigits_ne_comma :
    ∀ (fuel n : ℕ) (c : Char), c ∈ pyNatDigits fuel n → c ≠ ','
  | 0, _, _, hc => by simp [pyNatDigits] at hc
  | fuel + 1, n, c, hc => by
    unfold pyNatDigits at hc
    by_cases h : n < 10
    · simp only [if_pos h, List.mem_singleton] at hc
      exact hc ▸ digitChar_ne_comma n
    · simp only [if_neg h, List.mem_append, List.mem_singleton] at hc
      rcases hc with hc | hc
      · exact pyNatDigits_ne_comma fuel (n / 10) c hc
      · exact hc ▸ digitChar_ne_comma n

/-- `replDot` fixes everything but the comma. -/
theorem replDot_ne (c : Char) (h : c ≠ ',') : replDot c = c := by
  simp [replDot, h]

/-- Mapping `replDot` over a comma-grouped comma-free list gives the
dot-grouped list. -/
theorem map_replDot_groupAux :
    ∀ (l : List Char), (∀ c ∈ l, c ≠ ',') →
      (groupAux ',' l).map replDot = groupAux '.' l
  | [], _ => by simp [groupAux]
  | [a], h => by
    simp [groupAux, replDot_ne a (h a (by simp))]
  | [a, b], h => by
    simp [groupAux, replDot_ne a (h a (by simp)), replDot_ne b (h b (by simp))]
  | a :: b :: c :: rest, h => by
    have ha := replDot_ne a (h a (by simp))
    have hb := replDot_ne b (h b (by simp))
    have hc := replDot_ne c (h c (by simp))
    cases rest with
    | nil => simp [groupAux, ha, hb, hc]
    | cons d rs =>
      have ih := map_replDot_groupAux (d :: rs)
        (fun x hx => h x (List.mem_cons_of_mem _ (List.mem_cons_of_mem _
          (List.mem_cons_of_mem _ hx))))
      simp only [groupAux, List.isEmpty_cons, if_neg (by simp : ¬(false = true)),
        List.map_cons, ha, hb, hc, ih]
      rfl

/-- Same statement for grouping from the right. -/
theorem map_replDot_groupRight (l : List Char) (h : ∀ c ∈ l, c ≠ ',') :
    (groupRight ',' l).map replDot = groupRight '.' l := by
  unfold groupRight
  rw [List.map_reverse, map_replDot_groupAux l.reverse
    (fun c hc => h c (List.mem_reverse.mp hc))]

/-- A data row element is the bordered row shape followed by a newline. -/
theorem dataRow_shape (mk mv : ℕ) (k v : String) :
    dataRow mk mv k v =
      ("| " ++ k ++ spaces (mk - k.length) ++ " | " ++ v ++
        spaces (mv - v.length + 2) ++ " |") ++ "\n" := by
  unfold dataRow
  conv_rhs => rw [String.append_assoc]
  rw [show (" |" ++ "\n" : String) = " |\n" from by decide]

/-- A separator element is the dash rule flanked by pipes, followed by a
newline. -/
theorem sepRow_shape (w : ℕ) :
    sepRow w = ("|" ++ String.mk (List.replicate w '-') ++ "|") ++ "\n" := by
  unfold sepRow
  conv_rhs => rw [String.append_assoc]
  rw [show ("|" ++ "\n" : String) = "|\n" from by decide]

/-! ## The claims -/

/-- C1 (amended): the currency helper renders every entry as
`"{CODE} = {r} руб."` joined by `", "`, where `r` is the supplied value
rounded to two decimals by round-half-up applied to the exact value of
the supplied Python object.  For a rate supplied as a numeric string
that exact value is the exact decimal representation of the rate, so
`2.345` renders as `"2.35"` and `2.344` as `"2.34"`; a rate supplied as
a float contributes the exact binary value of its IEEE-754 double
instead, which agrees on `2.345` and `2.344` but not on every rate. -/
theorem c1_currency_half_up :
    (∀ (l : List (String × ℤ × ℕ)),
      formatCurrencyRates (l.map fun p => (p.1, RateInput.str p.2.1 p.2.2)) =
        String.intercalate ", " (l.map fun p =>
          p.1 ++ " = " ++ decStr2 (halfUpCentsFrac p.2.1 (10 ^ p.2.2)) ++ " руб.")) ∧
    decStr2 (halfUpCents (.str 2345 3)) = "2.35" ∧
    decStr2 (halfUpCents (nearestDoubleOfDec 2345 3)) = "2.35" ∧
    decStr2 (halfUpCents (.str 2344 3)) = "2.34" ∧
    decStr2 (halfUpCents (nearestDoubleOfDec 2344 3)) = "2.34" := by
  refine ⟨?_, by decide, by decide, by decide, by decide⟩
  intro l
  unfold formatCurrencyRates
  rw [List.map_map]
  rfl

/-- C1 counterexample: the rate `2.675` supplied as a number (its
IEEE-754 double is `6023564501608038 * 2 ^ (-51)`, within half an ulp of
`2.675`, and lies below it) renders as `"2.67"`, while round-half-up on
the exact decimal representation of `2.675` gives `"2.68"`; so the
rendering is not half-up on an exact decimal representation of the rate
regardless of how it is supplied. -/
theorem c1_float_tie_counterexample :
    nearestDoubleOfDec 2675 3 = .flt 6023564501608038 (-51) ∧
    2 * (1000 * 6023564501608038 - 2675 * 2 ^ 51 : ℤ).natAbs ≤ 1000 ∧
    formatCurrencyRates [("EUR", nearestDoubleOfDec 2675 3)] = "EUR = 2.67 руб." ∧
    decStr2 (halfUpCentsFrac 2675 (10 ^ 3)) = "2.68" ∧
    ("EUR = 2.67 руб." : String) ≠ "EUR = 2.68 руб." := by decide

/-- C2 (confirmed): the timezone helper renders `"UTC+"` then the
decimal rendering of `timezone // 3600` when the offset is nonnegative,
and `"UTC"` then the decimal rendering (which carries its own minus
sign) otherwise, with `//` the floor division `Int.fdiv`; in particular
`10800 ↦ "UTC+3"`, `-18000 ↦ "UTC-5"`, `0 ↦ "UTC+0"`. -/
theorem c2_timezone_format :
    (∀ t : ℤ,
      formatTimezone t = (if 0 ≤ t then "UTC+" else "UTC") ++ pyIntStr (t.fdiv 3600)) ∧
    formatTimezone 10800 = "UTC+3" ∧
    formatTimezone (-18000) = "UTC-5" ∧
    formatTimezone 0 = "UTC+0" := by
  refine ⟨?_, by decide, by decide, by decide⟩
  intro t
  unfold formatTimezone
  by_cases h : 0 ≤ t
  · rw [if_pos h, if_pos h, show ("UTC" ++ "+" : String) = "UTC+" from by decide]
  · rw [if_neg h, if_neg h]

/-- C3 (amended): `max_key_length` / `max_val_length` bound every label
and every formatted value of both sections, the data row of every pair
of either section is an element of the rendered output, every such
element is the claimed bordered shape `"| " + key + padding + " | " +
value + padding + " |"` followed by a terminating newline, every such
element has the same length `maxKeyLen + maxValLen + 10` (so the visible
row is `maxKeyLen + maxValLen + 9` characters wide and the width between
the two border pipes is `maxKeyLen + maxValLen + 7`), and every
separator element is `"|" + (maxKeyLen + maxValLen + 7)` dashes `+ "|"`
followed by a newline. -/
theorem c3_row_geometry (info : LocationInfo) (off : ℤ) (p : String × String)
    (hp : p ∈ countryPart info ++ capitalPart info off) :
    p.1.length ≤ maxKeyLen info off ∧
    p.2.length ≤ maxValLen info off ∧
    dataRow (maxKeyLen info off) (maxValLen info off) p.1 p.2 ∈ render info off ∧
    dataRow (maxKeyLen info off) (maxValLen info off) p.1 p.2 =
      ("| " ++ p.1 ++ spaces (maxKeyLen info off - p.1.length) ++ " | " ++ p.2 ++
        spaces (maxValLen info off - p.2.length + 2) ++ " |") ++ "\n" ∧
    (dataRow (maxKeyLen info off) (maxValLen info off) p.1 p.2).length =
      maxKeyLen info off + maxValLen info off + 10 ∧
    sepRow (maxKeyLen info off + maxValLen info off + 7) =
      ("|" ++ String.mk (List.replicate (maxKeyLen info off + maxValLen info off + 7) '-') ++
        "|") ++ "\n" :=
  ⟨key_le_maxKeyLen info off p hp,
   val_le_maxValLen info off p hp,
   dataRow_mem_render info off p hp,
   dataRow_shape _ _ _ _,
   dataRow_length _ _ _ _ (key_le_maxKeyLen info off p hp) (val_le_maxValLen info off p hp),
   sepRow_shape _⟩

/-- C3 witness: the claim theorem applied to the pair
`("Страна", "Россия")` of the concrete input `info0`. -/
theorem c3_row_geometry_witness :
    ("Страна", "Россия") ∈ countryPart info0 ++ capitalPart info0 0 ∧
    dataRow (maxKeyLen info0 0) (maxValLen info0 0) "Страна" "Россия" ∈ render info0 0 ∧
    (dataRow (maxKeyLen info0 0) (maxValLen info0 0) "Страна" "Россия").length =
      maxKeyLen info0 0 + maxValLen info0 0 + 10 :=
  ⟨by decide,
   (c3_row_geometry info0 0 ("Страна", "Россия") (by decide)).2.2.1,
   (c3_row_geometry info0 0 ("Страна", "Россия") (by decide)).2.2.2.2.1⟩

/-- C3 counterexample: on the concrete input `info0` the data row
element of the pair `("Страна", "Россия")` is an element of the
rendered output but is not equal to the bordered shape the claim states
(the element carries a terminating newline the claim omits). -/
theorem c3_newline_counterexample :
    dataRow (maxKeyLen info0 0) (maxValLen info0 0) "Страна" "Россия" ∈ render info0 0 ∧
    dataRow (maxKeyLen info0 0) (maxValLen info0 0) "Страна" "Россия" ≠
      "| " ++ "Страна" ++ spaces (maxKeyLen info0 0 - "Страна".length) ++ " | " ++
        "Россия" ++ spaces (maxValLen info0 0 - "Россия".length + 2) ++ " |" := by
  constructor
  · decide
  · decide

/-- C4 (code bug): the `"Время в столице"` value is produced by
`datetime.fromtimestamp(weather.dt + weather.timezone)`, which converts
through the host machine's local timezone.  On a host at UTC the value
for `dt = 1000, timezone = 3600` is the civil time of Unix timestamp
`4600`, but on a host at UTC+1 (offset `3600`) the same input renders
the civil time of `8200`, so the emitted value is not independent of the
ambient environment as the claim requires. -/
theorem c4_fromtimestamp_host_dependent :
    localTimeStr info0.weather 0 = "1970-01-01 01:16:40" ∧
    localTimeStr info0.weather 3600 = "1970-01-01 02:16:40" ∧
    localTimeStr info0.weather 3600 ≠ datetimeStr (info0.weather.dt + info0.weather.timezone) ∧
    ("Время в столице", localTimeStr info0.weather 3600) ∈ capitalPart info0 3600 := by
  refine ⟨by decide, by decide, by decide, by decide⟩

/-- C5 (amended): the news helper starts from the fixed header line
`"Новости по данной стране"` (the spec's "News for this country" is its
English gloss, not the emitted text) followed by a newline, then appends
for each news item, in input order, the four lines title, description,
url, published-at, each newline-terminated, followed by one blank line;
for an empty news list it produces the header line only. -/
theorem c5_news_format :
    (∀ news : List NewsItem,
      formatNews news = "Новости по данной стране\n" ++ String.join (news.map newsBlock)) ∧
    (∀ item : NewsItem,
      newsBlock item = item.title ++ "\n" ++ item.description ++ "\n" ++ item.url ++ "\n" ++
        item.published_at ++ "\n\n") ∧
    formatNews [] = "Новости по данной стране\n" := by
  refine ⟨?_, fun _ => rfl, by decide⟩
  intro news
  exact foldl_append_eq_join newsBlock news _

/-- C5 counterexample: the header line the helper emits is the Russian
`"Новости по данной стране"`, not the literal `"News for this
country"` stated by the claim. -/
theorem c5_header_counterexample :
    formatNews [] = "Новости по данной стране\n" ∧
    ("Новости по данной стране\n" : String) ≠ "News for this country\n" ∧
    ("Новости по данной стране\n" : String) ≠ "News for this country" := by decide

/-- C6 (confirmed): the population helper renders the integer's decimal
digits grouped in threes from the right with `"."` as the thousands
separator (grouping is built in, not locale-dependent, and never a
comma); in particular `1234567` renders as `"1.234.567"`. -/
theorem c6_population_grouping :
    (∀ n : ℤ, format_population n = specPopulationDots n) ∧
    format_population 1234567 = "1.234.567" := by
  refine ⟨?_, by decide⟩
  intro n
  unfold format_population specPopulationDots pyFormatCommaList
  congr 1
  rw [List.map_append]
  congr 1
  · by_cases h : n < 0 <;> simp [h, replDot]
  · exact map_replDot_groupRight _ (fun c hc => pyNatDigits_ne_comma _ _ c hc)

/-- C7 (amended): for every input the first element of the sequence
returned by `render` is the top border: `maxKeyLen + maxValLen + 9`
underscore characters followed by a terminating newline, so the element
has length `maxKeyLen + maxValLen + 10`. -/
theorem c7_top_border (info : LocationInfo) (off : ℤ) :
    (render info off).head? =
      some (topBorder (maxKeyLen info off) (maxValLen info off)) ∧
    topBorder (maxKeyLen info off) (maxValLen info off) =
      String.mk (List.replicate (maxKeyLen info off + maxValLen info off + 9) '_') ++ "\n" ∧
    (topBorder (maxKeyLen info off) (maxValLen info off)).length =
      maxKeyLen info off + maxValLen info off + 10 := by
  refine ⟨rfl, rfl, ?_⟩
  unfold topBorder
  rw [String.length_append]
  have h1 : (String.mk (List.replicate (maxKeyLen info off + maxValLen info off + 9) '_')).length
      = maxKeyLen info off + maxValLen info off + 9 := by
    show (List.replicate (maxKeyLen info off + maxValLen info off + 9) '_').length = _
    simp
  rw [h1, show ("\n" : String).length = 1 from rfl]

/-- C7 counterexample: on the minimal concrete input `info0` the first
element of the rendered sequence does not have length
`maxKeyLen + maxValLen + 9` (it has one character more, the terminating
newline) and is not composed solely of `"_"`. -/
theorem c7_border_counterexample :
    ((render info0 0).headD "").length ≠ maxKeyLen info0 0 + maxValLen info0 0 + 9 ∧
    ¬ (∀ c ∈ ((render info0 0).headD "").data, c = '_') := by
  constructor
  · decide
  · decide

/-- C8 (confirmed): `render` is deterministic — its output is a function
of the input object and the ambient host offset alone, so any two calls
on the same input in the same environment yield identical output
sequences. -/
theorem c8_deterministic (i j : LocationInfo) (o o' : ℤ) (hi : i = j) (ho : o = o') :
    render i o = render j o' := by rw [hi, ho]

/-- C8 witness: the theorem applied to the concrete input `info0`. -/
theorem c8_deterministic_witness :
    info0 = info0 ∧ (0 : ℤ) = 0 ∧ render info0 0 = render info0 0 :=
  ⟨rfl, rfl, c8_deterministic info0 info0 0 0 rfl rfl⟩

/-- C9 (confirmed): the state-threaded translation of `render`, in which
every helper call passes the `LocationInfo` along, returns the input
object unchanged next to the same output `render` computes: the
method bodies contain only field reads, so `render` never mutates its
input and has no effect beyond its return value. -/
theorem c9_no_mutation (s : LocationInfo) (off : ℤ) :
    (renderProc s off).2 = s ∧ (renderProc s off).1 = render s off :=
  ⟨rfl, rfl⟩

/-- C10 (confirmed): the sequence returned by `render` always has
exactly 36 elements, independent of how many languages, currency
entries or news items the input contains. -/
theorem c10_element_count (info : LocationInfo) (off : ℤ) :
    (render info off).length = 36 := rfl

end CountryDirectory
